import Mathlib

/-!
Verification of the serial transport core of the EC test application
(`src/rust/src/serial.rs`): frame encoding, inbound packet parsing,
multi-packet reassembly, error classification and the domain facade's
response-variant checks, shallowly embedded over `List Nat` byte buffers.
-/

set_option maxRecDepth 100000

namespace ECTest

/-! Constants from `serial.rs`. -/

abbrev SMBUS_HEADER_SZ : Nat := 4
abbrev SMBUS_LEN_IDX : Nat := 2
abbrev MCTP_FLAGS_IDX : Nat := 7
abbrev MCTP_HEADER_SZ : Nat := 5
abbrev ODP_HEADER_SZ : Nat := 2
abbrev HEADER_SZ : Nat := SMBUS_HEADER_SZ + MCTP_HEADER_SZ + ODP_HEADER_SZ
abbrev CMD_CODE_SZ : Nat := 2
abbrev BUFFER_SZ : Nat := 256
abbrev MCTP_MAX_PACKET_LEN : Nat := 69

/-- The three wire destinations (`enum Destination`). -/
inductive Destination where
  | Battery
  | Thermal
  | TimeAlarm
deriving DecidableEq, Repr

/-- `impl From<Destination> for u8`. -/
def Destination.toByte : Destination → Nat
  | .Battery => 0x08
  | .Thermal => 0x09
  | .TimeAlarm => 0x0B

/-- Overwrite `buf[i .. i + vals.length]` with `vals`, the model of writing a
byte slice into a fixed mutable buffer. -/
def setRange (buf : List Nat) (i : Nat) (vals : List Nat) : List Nat :=
  buf.take i ++ vals ++ buf.drop (i + vals.length)

/-- `prepend_headers`: writes the SMBUS, MCTP and ODP header bytes into the
first 11 positions of the buffer.  `buffer[2]` is the bus-transport length
byte, computed as `(MCTP_HEADER_SZ + ODP_HEADER_SZ + payload_sz) as u8`,
hence the `% 256`. -/
def prepend_headers (buffer : List Nat) (dst : Destination) (payload_sz : Nat) : List Nat :=
  setRange buffer 0
    [0x2, 0xF, (MCTP_HEADER_SZ + ODP_HEADER_SZ + payload_sz) % 256, 0x1,
     0x1, dst.toByte, 0x80, 0xD3, 0x7D,
     2, dst.toByte]

/-- Modelled from the spec: the external `SerializableMessage` serialization
contract (§9: `serialize(into buffer) -> size`) writes the message's wire
bytes into the target slice and returns the written size, failing when the
message does not fit in the slice.  The message is represented by the byte
list it serializes to. -/
def serializeMsg (payload out : List Nat) : Option (Nat × List Nat) :=
  if payload.length ≤ out.length then some (payload.length, setRange out 0 payload) else none

/-- `append_cmd`: writes the big-endian 16-bit command code at
`to[HEADER_SZ .. HEADER_SZ+CMD_CODE_SZ]`, serializes the request after it and
returns `payload_sz + CMD_CODE_SZ` together with the updated buffer. -/
def append_cmd (out : List Nat) (payload : List Nat) (cmd_code : Nat) :
    Option (Nat × List Nat) :=
  let to1 := setRange out HEADER_SZ [cmd_code / 256 % 256, cmd_code % 256]
  match serializeMsg payload (to1.drop (HEADER_SZ + CMD_CODE_SZ)) with
  | none => none
  | some (payload_sz, written) =>
      some (payload_sz + CMD_CODE_SZ, to1.take (HEADER_SZ + CMD_CODE_SZ) ++ written)

/-- The encoding phase of `Serial::send`: serialize the command into a fresh
zeroed 256-byte buffer, then fill in the headers; the frame written to the
port is `buffer[..HEADER_SZ + request_sz]`. -/
def encodeFrame (dst : Destination) (cmd : Nat) (payload : List Nat) : Option (List Nat) :=
  let buffer := List.replicate BUFFER_SZ 0
  match append_cmd buffer payload cmd with
  | none => none
  | some (request_sz, buf1) =>
      some ((prepend_headers buf1 dst request_sz).take (HEADER_SZ + request_sz))

theorem encodeFrame_sanity :
    encodeFrame .Thermal 1 [10, 11, 12, 13, 14, 15] =
      some [0x2, 0xF, 0xF, 0x1, 0x1, 0x9, 0x80, 0xD3, 0x7D, 2, 0x9, 0, 1,
            10, 11, 12, 13, 14, 15] := by decide

/-- How the read loop of `Serial::send` can end an iteration abnormally.
`transport` is a failed `read_exact` (timeout / I/O error); `protocol len` is
the rejected bus-transport length byte; `overflow` is the
`Response does not fit in buffer` error from `buffer.get_mut`; `panicSlice`
and `panicCopy` are the two slice-indexing panics the Rust code can hit
(`&buffer[13..4+len]` with `4+len < 13`, and
`response_buf[offset..offset+len]` with `offset+len > 256`). -/
inductive ReadError where
  | transport
  | protocol (len : Nat)
  | overflow
  | panicSlice
  | panicCopy
deriving DecidableEq, Repr

/-- Result of the read loop: on success, the bytes written into
`response_buf` and the captured `cmd_code`; on failure, the failure kind
together with the `response_buf` contents and `cmd_code` at that point. -/
inductive LoopResult where
  | ok (response : List Nat) (cmd : Nat)
  | err (e : ReadError) (response : List Nat) (cmd : Nat)
deriving DecidableEq, Repr

/-- Outcome of one iteration of the read loop: the exchange is complete
(EOM seen), the loop continues with what is left of the stream, or the
iteration failed. -/
inductive StepResult where
  | done (response : List Nat) (cmd : Nat)
  | more (stream acc : List Nat) (cmd : Nat)
  | fail (e : ReadError) (response : List Nat) (cmd : Nat)
deriving DecidableEq, Repr

/-- Processing of one fully read packet (lines 158-181).  `buf` holds the
4-byte SMBUS header plus the `len` remaining bytes (indices past `buf.length`
of the real 256-byte scratch buffer are zero, which `getD`'s default
reproduces): read the flags byte at index 7; on SOM capture the big-endian
command code from indices 11-12 and start the payload at index 13, otherwise
start it at index 9; append the payload slice to `response_buf` and stop at
EOM.  `&buffer[psIdx..buf.length]` panics when `psIdx > buf.length`, and the
copy into `response_buf[offset..offset+len]` panics when it overruns the
256-byte response buffer. -/
def readPacket (buf rest2 acc : List Nat) (cmd : Nat) : StepResult :=
  let flags := buf.getD MCTP_FLAGS_IDX 0
  let som := flags &&& 0x80 ≠ 0
  let cmd2 := if som then 256 * buf.getD HEADER_SZ 0 + buf.getD (HEADER_SZ + 1) 0 else cmd
  let psIdx := if som then HEADER_SZ + CMD_CODE_SZ else SMBUS_HEADER_SZ + MCTP_HEADER_SZ
  if psIdx ≤ buf.length then
    let data := buf.drop psIdx
    if acc.length + data.length ≤ BUFFER_SZ then
      if flags &&& 0x40 ≠ 0 then .done (acc ++ data) cmd2
      else .more rest2 (acc ++ data) cmd2
    else .fail .panicCopy acc cmd2
  else .fail .panicSlice acc cmd2

/-- One iteration of the read loop (lines 140-181): read the 4-byte SMBUS
header, validate the bus-transport length byte against
`[MCTP_HEADER_SZ, MCTP_MAX_PACKET_LEN]`, read the rest of the packet, then
hand it to `readPacket`. -/
def readStep (stream acc : List Nat) (cmd : Nat) : StepResult :=
  match stream with
  | b0 :: b1 :: b2 :: b3 :: rest =>
      if MCTP_HEADER_SZ ≤ b2 ∧ b2 ≤ MCTP_MAX_PACKET_LEN then
        if SMBUS_HEADER_SZ + b2 ≤ BUFFER_SZ then
          if b2 ≤ rest.length then
            readPacket (b0 :: b1 :: b2 :: b3 :: rest.take b2) (rest.drop b2) acc cmd
          else .fail .transport acc cmd
        else .fail .overflow acc cmd
      else .fail (.protocol b2) acc cmd
  | _ => .fail .transport acc cmd

def readLoopF : Nat → List Nat → List Nat → Nat → LoopResult
  | fuel + 1, stream, acc, cmd =>
      match readStep stream acc cmd with
      | .done response c => .ok response c
      | .more stream2 acc2 c => readLoopF fuel stream2 acc2 c
      | .fail e response c => .err e response c
  | 0, _, acc, cmd => .err .transport acc cmd

/-- The read loop of `Serial::send`, entered with the port's byte stream.
Since every iteration consumes at least the 4-byte SMBUS header, a fuel of
`stream.length` never runs out before the stream does (fuel exhaustion and an
exhausted stream coincide, both mapping to the failed `read_exact`). -/
def readLoop (stream acc : List Nat) (cmd : Nat) : LoopResult :=
  readLoopF stream.length stream acc cmd

/-- When `readPacket` continues the loop, the remaining stream it hands back
is exactly the `rest2` it was given. -/
theorem readPacket_more {buf rest2 acc : List Nat} {cmd : Nat}
    {s2 a2 : List Nat} {c : Nat}
    (h : readPacket buf rest2 acc cmd = .more s2 a2 c) : s2 = rest2 := by
  simp only [readPacket] at h
  split_ifs at h <;> try exact StepResult.noConfusion h
  all_goals
    injection h with h1 h2 h3
    exact h1.symm

/-- A continuing iteration consumes at least the 4 SMBUS header bytes. -/
theorem readStep_more_length {stream acc : List Nat} {cmd : Nat}
    {stream2 acc2 : List Nat} {c : Nat}
    (h : readStep stream acc cmd = .more stream2 acc2 c) :
    stream2.length + 4 ≤ stream.length := by
  match stream with
  | [] | [b0] | [b0, b1] | [b0, b1, b2] => exact StepResult.noConfusion h
  | b0 :: b1 :: b2 :: b3 :: rest =>
      simp only [readStep] at h
      split_ifs at h <;> try exact StepResult.noConfusion h
      have hs := readPacket_more h
      subst hs
      simp only [List.length_drop, List.length_cons]
      omega

/-- Any fuel at least the stream length computes the same result, so
`readLoop` is the unique fixed point of the loop body. -/
theorem readLoopF_irrel :
    ∀ (f1 f2 : Nat) (stream acc : List Nat) (cmd : Nat),
      stream.length ≤ f1 → stream.length ≤ f2 →
      readLoopF f1 stream acc cmd = readLoopF f2 stream acc cmd := by
  intro f1
  induction f1 with
  | zero =>
      intro f2 stream acc cmd h1 _
      have hs : stream = [] := List.length_eq_zero.mp (Nat.le_zero.mp h1)
      subst hs
      cases f2 <;> rfl
  | succ g ih =>
      intro f2 stream acc cmd h1 h2
      match f2 with
      | 0 =>
          have hs : stream = [] := List.length_eq_zero.mp (Nat.le_zero.mp h2)
          subst hs
          rfl
      | f2' + 1 =>
          simp only [readLoopF]
          match hstep : readStep stream acc cmd with
          | .done response c => rfl
          | .fail e response c => rfl
          | .more stream2 acc2 c =>
              have hlen := readStep_more_length hstep
              exact ih f2' stream2 acc2 c (by omega) (by omega)

/-- Unfolding equation for `readLoop`: one `readStep`, then loop. -/
theorem readLoop_step (stream acc : List Nat) (cmd : Nat) :
    readLoop stream acc cmd =
      match readStep stream acc cmd with
      | .done response c => .ok response c
      | .more stream2 acc2 c => readLoop stream2 acc2 c
      | .fail e response c => .err e response c := by
  match stream with
  | [] => rfl
  | b :: bs =>
      show readLoopF (bs.length + 1) (b :: bs) acc cmd = _
      simp only [readLoopF]
      match hstep : readStep (b :: bs) acc cmd with
      | .done response c => rfl
      | .fail e response c => rfl
      | .more stream2 acc2 c =>
          have hlen := readStep_more_length hstep
          exact readLoopF_irrel _ _ _ _ _ (by simp at hlen ⊢; omega) (le_refl _)

/-- The flags byte of an inbound packet: bit `0x80` is Start-of-Message, bit
`0x40` is End-of-Message. -/
def flagsByte (som eom : Bool) : Nat :=
  (if som then 0x80 else 0) + (if eom then 0x40 else 0)

/-- A well-formed inbound packet as the EC produces it: 4-byte SMBUS header
whose byte 2 counts the remaining bytes, 5-byte MCTP header carrying the
flags byte at absolute index `MCTP_FLAGS_IDX = 7`, and — on SOM packets
only — the 2-byte ODP header followed by the big-endian command code, then
the payload fragment. -/
def mkPacket (som eom : Bool) (src cmd : Nat) (payload : List Nat) : List Nat :=
  let body : List Nat :=
    [0x1, src, 0xD3, flagsByte som eom, 0x7D]
      ++ (if som then [2, src, cmd / 256 % 256, cmd % 256] else [])
      ++ payload
  [0x2, 0xF, body.length, 0x1] ++ body

/-- One iteration on a well-formed packet: the payload fragment is appended
to the response buffer, the command code is captured from bytes 11-12 exactly
on SOM packets, and the loop continues exactly when EOM is clear. -/
theorem readStep_mkPacket (som eom : Bool) (src cmd : Nat) (payload s acc : List Nat) (c : Nat)
    (hp : payload.length ≤ if som then 60 else 64)
    (hfit : acc.length + payload.length ≤ 256) :
    readStep (mkPacket som eom src cmd payload ++ s) acc c =
      if eom then
        .done (acc ++ payload) (if som then 256 * (cmd / 256 % 256) + cmd % 256 else c)
      else
        .more s (acc ++ payload) (if som then 256 * (cmd / 256 % 256) + cmd % 256 else c) := by
  cases som <;> cases eom <;> simp only [if_true, if_false, Bool.false_eq_true, ite_true,
    ite_false, reduceIte] at hp ⊢
  · -- continuation packet, EOM clear
    simp only [mkPacket, flagsByte]
    norm_num
    simp only [readStep, SMBUS_HEADER_SZ, MCTP_HEADER_SZ, MCTP_MAX_PACKET_LEN, BUFFER_SZ,
      HEADER_SZ, ODP_HEADER_SZ, CMD_CODE_SZ, MCTP_FLAGS_IDX, List.cons_append, List.nil_append]
    rw [if_pos (by constructor <;> omega), if_pos (by omega),
        if_pos (by simp only [List.length_cons, List.length_append]; omega)]
    rw [show (1 : Nat) :: src :: 211 :: 0 :: 125 :: (payload ++ s)
        = ([1, src, 211, 0, 125] ++ payload) ++ s from by simp]
    rw [List.take_left' (by simp only [List.length_append, List.length_cons, List.length_nil]; omega),
        List.drop_left' (by simp only [List.length_append, List.length_cons, List.length_nil]; omega)]
    simp only [readPacket, MCTP_FLAGS_IDX, HEADER_SZ, SMBUS_HEADER_SZ, ODP_HEADER_SZ,
      CMD_CODE_SZ, BUFFER_SZ, MCTP_HEADER_SZ, List.cons_append, List.nil_append,
      List.getD_cons_succ, List.getD_cons_zero]
    norm_num
    intro h
    exact absurd h (by omega)
  · -- continuation packet, EOM set
    simp only [mkPacket, flagsByte]
    norm_num
    simp only [readStep, SMBUS_HEADER_SZ, MCTP_HEADER_SZ, MCTP_MAX_PACKET_LEN, BUFFER_SZ,
      HEADER_SZ, ODP_HEADER_SZ, CMD_CODE_SZ, MCTP_FLAGS_IDX, List.cons_append, List.nil_append]
    rw [if_pos (by constructor <;> omega), if_pos (by omega),
        if_pos (by simp only [List.length_cons, List.length_append]; omega)]
    rw [show (1 : Nat) :: src :: 211 :: 64 :: 125 :: (payload ++ s)
        = ([1, src, 211, 64, 125] ++ payload) ++ s from by simp]
    rw [List.take_left' (by simp only [List.length_append, List.length_cons, List.length_nil]; omega),
        List.drop_left' (by simp only [List.length_append, List.length_cons, List.length_nil]; omega)]
    simp only [readPacket, MCTP_FLAGS_IDX, HEADER_SZ, SMBUS_HEADER_SZ, ODP_HEADER_SZ,
      CMD_CODE_SZ, BUFFER_SZ, MCTP_HEADER_SZ, List.cons_append, List.nil_append,
      List.getD_cons_succ, List.getD_cons_zero]
    simp only [show ((64 : Nat) &&& 128) = 0 from by decide,
      show ((64 : Nat) &&& 64) = 64 from by decide]
    norm_num
    intro h
    exact absurd h (by omega)
  · -- SOM packet, EOM clear
    simp only [mkPacket, flagsByte]
    norm_num
    simp only [readStep, SMBUS_HEADER_SZ, MCTP_HEADER_SZ, MCTP_MAX_PACKET_LEN, BUFFER_SZ,
      HEADER_SZ, ODP_HEADER_SZ, CMD_CODE_SZ, MCTP_FLAGS_IDX, List.cons_append, List.nil_append]
    rw [if_pos (by constructor <;> omega), if_pos (by omega),
        if_pos (by simp only [List.length_cons, List.length_append]; omega)]
    rw [show (1 : Nat) :: src :: 211 :: 128 :: 125 :: 2 :: src :: cmd / 256 % 256 :: cmd % 256 :: (payload ++ s)
        = ([1, src, 211, 128, 125, 2, src, cmd / 256 % 256, cmd % 256] ++ payload) ++ s from by simp]
    rw [List.take_left' (by simp only [List.length_append, List.length_cons, List.length_nil]; omega),
        List.drop_left' (by simp only [List.length_append, List.length_cons, List.length_nil]; omega)]
    simp only [readPacket, MCTP_FLAGS_IDX, HEADER_SZ, SMBUS_HEADER_SZ, ODP_HEADER_SZ,
      CMD_CODE_SZ, BUFFER_SZ, MCTP_HEADER_SZ, List.cons_append, List.nil_append,
      List.getD_cons_succ, List.getD_cons_zero]
    norm_num
    rw [if_pos hfit, if_pos (by decide)]
  · -- SOM packet, EOM set
    simp only [mkPacket, flagsByte]
    norm_num
    simp only [readStep, SMBUS_HEADER_SZ, MCTP_HEADER_SZ, MCTP_MAX_PACKET_LEN, BUFFER_SZ,
      HEADER_SZ, ODP_HEADER_SZ, CMD_CODE_SZ, MCTP_FLAGS_IDX, List.cons_append, List.nil_append]
    rw [if_pos (by constructor <;> omega), if_pos (by omega),
        if_pos (by simp only [List.length_cons, List.length_append]; omega)]
    rw [show (1 : Nat) :: src :: 211 :: 192 :: 125 :: 2 :: src :: cmd / 256 % 256 :: cmd % 256 :: (payload ++ s)
        = ([1, src, 211, 192, 125, 2, src, cmd / 256 % 256, cmd % 256] ++ payload) ++ s from by simp]
    rw [List.take_left' (by simp only [List.length_append, List.length_cons, List.length_nil]; omega),
        List.drop_left' (by simp only [List.length_append, List.length_cons, List.length_nil]; omega)]
    simp only [readPacket, MCTP_FLAGS_IDX, HEADER_SZ, SMBUS_HEADER_SZ, ODP_HEADER_SZ,
      CMD_CODE_SZ, BUFFER_SZ, MCTP_HEADER_SZ, List.cons_append, List.nil_append,
      List.getD_cons_succ, List.getD_cons_zero]
    simp only [show ((192 : Nat) &&& 128) = 128 from by decide,
      show ((192 : Nat) &&& 64) = 64 from by decide]
    norm_num
    intro h
    exact absurd h (by omega)

/-- One `readLoop` round on a well-formed packet. -/
theorem readLoop_mkPacket (som eom : Bool) (src cmd : Nat) (payload s acc : List Nat) (c : Nat)
    (hp : payload.length ≤ if som then 60 else 64)
    (hfit : acc.length + payload.length ≤ 256) :
    readLoop (mkPacket som eom src cmd payload ++ s) acc c =
      if eom then
        .ok (acc ++ payload) (if som then 256 * (cmd / 256 % 256) + cmd % 256 else c)
      else
        readLoop s (acc ++ payload) (if som then 256 * (cmd / 256 % 256) + cmd % 256 else c) := by
  rw [readLoop_step, readStep_mkPacket som eom src cmd payload s acc c hp hfit]
  cases eom <;> simp

/-- The byte stream of a run of continuation packets (SOM clear) carrying
`frags`, with EOM set only on the last one. -/
def contStream (src : Nat) : List (List Nat) → List Nat
  | [] => []
  | [f] => mkPacket false true src 0 f
  | f :: rest => mkPacket false false src 0 f ++ contStream src rest

/-- The byte stream of a logical response: a SOM packet carrying `head0`,
then continuation packets carrying `rest`, EOM set only on the last packet
(on the SOM packet itself when `rest` is empty). -/
def msgStream (src cmd : Nat) (head0 : List Nat) (rest : List (List Nat)) : List Nat :=
  match rest with
  | [] => mkPacket true true src cmd head0
  | _ :: _ => mkPacket true false src cmd head0 ++ contStream src rest

/-- Reassembly over a run of continuation packets: every fragment is appended
in arrival order, the loop stops at the EOM packet (`extra` is never read)
and the command code is untouched. -/
theorem readLoop_contStream (src : Nat) (frags : List (List Nat)) (extra acc : List Nat)
    (c : Nat) (hne : frags ≠ [])
    (hsz : ∀ f ∈ frags, f.length ≤ 64)
    (hfit : acc.length + (frags.map List.length).sum ≤ 256) :
    readLoop (contStream src frags ++ extra) acc c = .ok (acc ++ frags.flatten) c := by
  induction frags generalizing acc with
  | nil => exact absurd rfl hne
  | cons f rest ih =>
      cases rest with
      | nil =>
          simp only [contStream]
          rw [readLoop_mkPacket false true src 0 f extra acc c
            (by simpa using hsz f (by simp)) (by simp at hfit; omega)]
          simp
      | cons g rest2 =>
          simp only [contStream, List.append_assoc]
          rw [readLoop_mkPacket false false src 0 f _ acc c
            (by simpa using hsz f (by simp)) (by simp at hfit; omega)]
          norm_num
          rw [ih (acc ++ f) (by simp) (fun x hx => hsz x (by simp [hx]))
            (by simp only [List.length_append, List.map_cons, List.sum_cons] at hfit ⊢; omega)]
          simp

theorem readLoop_single_packet_sanity :
    readLoop (mkPacket true true 9 0x204 [5, 6, 7]) [] 0 = .ok [5, 6, 7] 0x204 := by decide

/-- Claim C5: a sequence of N >= 1 valid inbound packets with SOM only on the
first fragment and EOM only on the last reassembles to the concatenation of
all fragments in arrival order; the loop terminates exactly at the EOM packet
(any `extra` bytes after it are never read), and a single SOM+EOM packet
yields exactly its own payload slice. -/
theorem c5_reassembly (src cmd : Nat) (head0 : List Nat) (rest : List (List Nat))
    (extra : List Nat) (hcmd : cmd < 65536) (h0 : head0.length ≤ 60)
    (hsz : ∀ f ∈ rest, f.length ≤ 64)
    (hfit : head0.length + (rest.map List.length).sum ≤ 256) :
    readLoop (msgStream src cmd head0 rest ++ extra) [] 0 =
      .ok (head0 ++ rest.flatten) cmd := by
  have hc : 256 * (cmd / 256 % 256) + cmd % 256 = cmd := by omega
  cases rest with
  | nil =>
      simp only [msgStream]
      rw [readLoop_mkPacket true true src cmd head0 extra [] 0 (by simpa using h0)
        (by simpa using hfit)]
      simp [hc]
  | cons g rest2 =>
      simp only [msgStream, List.append_assoc]
      rw [readLoop_mkPacket true false src cmd head0 _ [] 0 (by simpa using h0)
        (by simp at hfit ⊢; omega)]
      norm_num [hc]
      rw [readLoop_contStream src (g :: rest2) extra head0 cmd (by simp)
        hsz (by simp at hfit ⊢; omega)]
      simp

/-- Witness for C5 at a concrete three-fragment exchange. -/
theorem c5_reassembly_witness :
    readLoop (msgStream 9 0x102 [1, 2] [[3, 4], [5]] ++ [0xAA, 0xBB]) [] 0 =
      .ok [1, 2, 3, 4, 5] 0x102 := by
  have h := c5_reassembly 9 0x102 [1, 2] [[3, 4], [5]] [0xAA, 0xBB] (by decide)
    (by decide) (by decide) (by decide)
  simpa using h

/-- Claim C10: when every packet is a continuation packet (no SOM anywhere)
and the last carries EOM, the exchange reports no missing-SOM error: the loop
ends in success, deserialization is attempted with the initial command code
0, and every fragment was extracted at the continuation offset. -/
theorem c10_no_som_defaults_cmd_zero (src : Nat) (frags : List (List Nat))
    (extra : List Nat) (hne : frags ≠ [])
    (hsz : ∀ f ∈ frags, f.length ≤ 64)
    (hfit : (frags.map List.length).sum ≤ 256) :
    readLoop (contStream src frags ++ extra) [] 0 = .ok frags.flatten 0 := by
  have h := readLoop_contStream src frags extra [] 0 hne hsz (by simpa using hfit)
  simpa using h

/-- Witness for C10: two continuation packets, no SOM, decode key stays 0. -/
theorem c10_no_som_defaults_cmd_zero_witness :
    readLoop (contStream 9 [[1, 2], [3]] ++ []) [] 0 = .ok [1, 2, 3] 0 := by
  have h := c10_no_som_defaults_cmd_zero 9 [[1, 2], [3]] [] (by decide) (by decide)
    (by decide)
  simpa using h

/-- Claim C4: an inbound packet whose bus-transport length byte lies outside
`[MCTP_HEADER_SZ, MCTP_MAX_PACKET_LEN] = [5, 69]` makes the whole exchange
fail with the invalid-length protocol error, and the response buffer and
decode key are exactly as they were before the packet (no partial write). -/
theorem c4_bad_length_protocol_error (b0 b1 len b3 : Nat) (rest acc : List Nat) (cmd : Nat)
    (hbad : len < MCTP_HEADER_SZ ∨ MCTP_MAX_PACKET_LEN < len) :
    readLoop (b0 :: b1 :: len :: b3 :: rest) acc cmd = .err (.protocol len) acc cmd := by
  rw [readLoop_step]
  simp only [readStep]
  rw [if_neg (by omega)]

/-- Witness for C4 at the spec's example length bytes 3 and 70. -/
theorem c4_bad_length_protocol_error_witness :
    readLoop [0x2, 0xF, 3, 0x1, 0, 0, 0] [] 0 = .err (.protocol 3) [] 0 ∧
      readLoop [0x2, 0xF, 70, 0x1] [9] 5 = .err (.protocol 70) [9] 5 :=
  ⟨c4_bad_length_protocol_error 2 15 3 1 [0, 0, 0] [] 0 (by decide),
   c4_bad_length_protocol_error 2 15 70 1 [] [9] 5 (by decide)⟩

/-- Claim C6: parsing one inbound packet: when the SOM bit (0x80) of the
flags byte at offset 7 is set, the decode key is the big-endian 16-bit value
at offsets 11-12 and the payload slice starts at offset 13; when SOM is
clear, the payload slice starts at offset 9 — right after the 4-byte
bus-transport and 5-byte message-transport headers — and the decode key is
left unchanged.  In both cases the slice runs to the end of the packet and is
appended to the response buffer, and the loop stops exactly on EOM (0x40). -/
theorem c6_parse_offsets :
    (∀ (a0 a1 a3 m0 m1 m2 flags m4 o0 o1 ch cl : Nat) (payload s acc : List Nat) (c : Nat),
        flags &&& 0x80 = 0x80 → payload.length ≤ 60 →
        acc.length + payload.length ≤ 256 →
        readStep (a0 :: a1 :: (payload.length + 9) :: a3 :: m0 :: m1 :: m2 :: flags :: m4 ::
            o0 :: o1 :: ch :: cl :: (payload ++ s)) acc c =
          if flags &&& 0x40 ≠ 0 then .done (acc ++ payload) (256 * ch + cl)
          else .more s (acc ++ payload) (256 * ch + cl)) ∧
    (∀ (a0 a1 a3 m0 m1 m2 flags m4 : Nat) (payload s acc : List Nat) (c : Nat),
        flags &&& 0x80 = 0 → payload.length ≤ 64 →
        acc.length + payload.length ≤ 256 →
        readStep (a0 :: a1 :: (payload.length + 5) :: a3 :: m0 :: m1 :: m2 :: flags :: m4 ::
            (payload ++ s)) acc c =
          if flags &&& 0x40 ≠ 0 then .done (acc ++ payload) c
          else .more s (acc ++ payload) c) := by
  constructor
  · intro a0 a1 a3 m0 m1 m2 flags m4 o0 o1 ch cl payload s acc c hS hp hfit
    simp only [readStep, SMBUS_HEADER_SZ, MCTP_HEADER_SZ, MCTP_MAX_PACKET_LEN, BUFFER_SZ,
      HEADER_SZ, ODP_HEADER_SZ, CMD_CODE_SZ, MCTP_FLAGS_IDX]
    rw [if_pos (by constructor <;> omega), if_pos (by omega),
        if_pos (by simp only [List.length_cons, List.length_append]; omega)]
    rw [show m0 :: m1 :: m2 :: flags :: m4 :: o0 :: o1 :: ch :: cl :: (payload ++ s)
        = ([m0, m1, m2, flags, m4, o0, o1, ch, cl] ++ payload) ++ s from by simp]
    rw [List.take_left' (by simp only [List.length_append, List.length_cons, List.length_nil]; omega),
        List.drop_left' (by simp only [List.length_append, List.length_cons, List.length_nil]; omega)]
    simp only [readPacket, MCTP_FLAGS_IDX, HEADER_SZ, SMBUS_HEADER_SZ, ODP_HEADER_SZ,
      CMD_CODE_SZ, BUFFER_SZ, MCTP_HEADER_SZ, List.cons_append, List.nil_append,
      List.getD_cons_succ, List.getD_cons_zero]
    rw [hS]
    norm_num
    intro h
    exact absurd h (by omega)
  · intro a0 a1 a3 m0 m1 m2 flags m4 payload s acc c hS hp hfit
    simp only [readStep, SMBUS_HEADER_SZ, MCTP_HEADER_SZ, MCTP_MAX_PACKET_LEN, BUFFER_SZ,
      HEADER_SZ, ODP_HEADER_SZ, CMD_CODE_SZ, MCTP_FLAGS_IDX]
    rw [if_pos (by constructor <;> omega), if_pos (by omega),
        if_pos (by simp only [List.length_cons, List.length_append]; omega)]
    rw [show m0 :: m1 :: m2 :: flags :: m4 :: (payload ++ s)
        = ([m0, m1, m2, flags, m4] ++ payload) ++ s from by simp]
    rw [List.take_left' (by simp only [List.length_append, List.length_cons, List.length_nil]; omega),
        List.drop_left' (by simp only [List.length_append, List.length_cons, List.length_nil]; omega)]
    simp only [readPacket, MCTP_FLAGS_IDX, HEADER_SZ, SMBUS_HEADER_SZ, ODP_HEADER_SZ,
      CMD_CODE_SZ, BUFFER_SZ, MCTP_HEADER_SZ, List.cons_append, List.nil_append,
      List.getD_cons_succ, List.getD_cons_zero]
    rw [hS]
    norm_num
    intro h
    exact absurd h (by omega)

/-- Witness for C6: a concrete SOM+EOM packet and a concrete continuation
EOM packet. -/
theorem c6_parse_offsets_witness :
    readStep [2, 15, 11, 1, 1, 9, 211, 0xC0, 125, 2, 9, 1, 2, 7, 8] [] 0 =
      .done [7, 8] 258 ∧
    readStep [2, 15, 6, 1, 1, 9, 211, 0x40, 125, 7] [5] 3 = .done [5, 7] 3 := by
  constructor
  · have h := c6_parse_offsets.1 2 15 1 1 9 211 0xC0 125 2 9 1 2 [7, 8] [] [] 0
      (by decide) (by decide) (by decide)
    simpa using h
  · have h := c6_parse_offsets.2 2 15 1 1 9 211 0x40 125 [7] [] [5] 3
      (by decide) (by decide) (by decide)
    simpa using h

/-- Claim C1 failing input: five valid inbound packets whose payload
fragments total 257 bytes, one more than the 256-byte response buffer. -/
def overflowStream : List Nat :=
  msgStream 8 0x0A01 (List.replicate 60 1)
    [List.replicate 64 2, List.replicate 64 3, List.replicate 64 4, List.replicate 5 5]

/-- Claim C1: when the reassembled fragments would exceed the 256-byte
response buffer, the read loop does not produce the per-call protocol error
the spec requires: the copy `response_buf[offset..offset+len]` runs out of
bounds, i.e. the Rust code panics (`panicCopy`) instead of returning an
error, with exactly the first 252 bytes already reassembled. -/
theorem c1_capacity_overflow_panics :
    readLoop overflowStream [] 0 =
      .err .panicCopy
        (List.replicate 60 1 ++ List.replicate 64 2 ++ List.replicate 64 3 ++
          List.replicate 64 4)
        0x0A01 := by decide

/-- What `Serial::send`'s encoding phase produces whenever the serialized
payload fits the buffer: the 11 header bytes — with bus-transport length byte
`(5 + 2 + (payload_size + 2)) % 256 = (9 + payload_size) % 256`, the command
code being part of the counted request — then the big-endian command code,
then the payload. -/
theorem encodeFrame_eq (dst : Destination) (cmd : Nat) (payload : List Nat)
    (h : payload.length ≤ 243) :
    encodeFrame dst cmd payload =
      some ([0x2, 0xF, (9 + payload.length) % 256, 0x1, 0x1, dst.toByte, 0x80, 0xD3, 0x7D,
        2, dst.toByte] ++ [cmd / 256 % 256, cmd % 256] ++ payload) := by
  simp only [encodeFrame, append_cmd, serializeMsg, setRange, BUFFER_SZ, HEADER_SZ,
    SMBUS_HEADER_SZ, MCTP_HEADER_SZ, ODP_HEADER_SZ, CMD_CODE_SZ]
  norm_num [List.take_replicate, List.drop_replicate, List.length_drop, List.length_take,
    List.length_append, List.length_replicate]
  rw [if_pos h]
  norm_num [List.take_append_eq_append_take, List.drop_append_eq_append_drop,
    List.take_replicate, List.drop_replicate, List.length_replicate, prepend_headers, setRange]
  have h1 : 7 + (payload.length + 2) = 9 + payload.length := by omega
  have h2 : 11 + (payload.length + 2) = 13 + payload.length := by omega
  rw [h1, h2]
  generalize (List.replicate (11 - (13 + payload.length)) 0 ++
      List.drop (13 + payload.length - 11) (cmd / 256 % 256 :: cmd % 256 :: List.replicate 243 0)) = junk
  rw [show (2 : Nat) :: 15 :: ((9 + payload.length) % 256) :: 1 :: 1 :: dst.toByte :: 128 :: 211
      :: 125 :: 2 :: dst.toByte :: cmd / 256 % 256 :: cmd % 256 :: (payload ++ junk)
    = ([2, 15, (9 + payload.length) % 256, 1, 1, dst.toByte, 128, 211, 125, 2, dst.toByte,
        cmd / 256 % 256, cmd % 256] ++ (payload ++ junk)) from by simp]
  rw [List.take_append_eq_append_take]
  norm_num [List.take_of_length_le, List.take_left]

/-- Claim C2 counterexample: for a serialized payload of size 6 the code does
NOT emit the header bytes `[02,0F,0D,01, 01,09,80,D3,7D, 02,09]` claimed by
the spec: the bus-transport length byte is 0x0F, not 0x0D, because the
2-byte command discriminant is counted as part of the request. -/
theorem c2_counterexample :
    (encodeFrame .Thermal 1 [10, 11, 12, 13, 14, 15]).map (List.take 11) ≠
      some [0x2, 0xF, 0xD, 0x1, 0x1, 0x9, 0x80, 0xD3, 0x7D, 0x2, 0x9] := by decide

/-- Claim C2 (amended): encoding a request for destination=Thermal with a
serialized payload of size 6 produces the header bytes
`[02,0F,0F,01, 01,09,80,D3,7D, 02,09]` — bus-transport length byte
0x0F = 5 + 2 + (2 + 6), counting the discriminant — followed by the 2-byte
big-endian command discriminant and the 6-byte payload. -/
theorem c2_amended (cmd b0 b1 b2 b3 b4 b5 : Nat) (hcmd : cmd < 65536) :
    encodeFrame .Thermal cmd [b0, b1, b2, b3, b4, b5] =
      some ([0x2, 0xF, 0xF, 0x1, 0x1, 0x9, 0x80, 0xD3, 0x7D, 0x2, 0x9]
        ++ [cmd / 256, cmd % 256] ++ [b0, b1, b2, b3, b4, b5]) := by
  have h := encodeFrame_eq .Thermal cmd [b0, b1, b2, b3, b4, b5] (by simp)
  rw [h]
  norm_num [Destination.toByte, Nat.mod_eq_of_lt (show cmd / 256 < 256 by omega)]

/-- Witness for C2 (amended) at discriminant 0x0102. -/
theorem c2_amended_witness :
    encodeFrame .Thermal 0x0102 [10, 11, 12, 13, 14, 15] =
      some ([0x2, 0xF, 0xF, 0x1, 0x1, 0x9, 0x80, 0xD3, 0x7D, 0x2, 0x9]
        ++ [1, 2] ++ [10, 11, 12, 13, 14, 15]) := by
  have h := c2_amended 0x0102 10 11 12 13 14 15 (by decide)
  simpa using h

/-- Claim C3 counterexample: the outbound bus-transport length byte is not
`message-transport header size + application header size + payload size`:
for a 6-byte payload it is 15, not 5 + 2 + 6 = 13. -/
theorem c3_counterexample :
    (encodeFrame .Thermal 1 [10, 11, 12, 13, 14, 15]).map (fun f => f.getD SMBUS_LEN_IDX 0) ≠
      some (MCTP_HEADER_SZ + ODP_HEADER_SZ + 6) := by decide

/-- Claim C3 (amended): for every outbound frame the bus-transport length
byte equals `message-transport header size (5) + application header size (2)
+ (command discriminant size (2) + payload size)`; this value is below 256
(so the `as u8` cast never wraps), and encoding fails exactly when the
payload size exceeds the remaining buffer capacity
`BUFFER_SZ - HEADER_SZ - CMD_CODE_SZ = 243`. -/
theorem c3_amended (dst : Destination) (cmd : Nat) (payload : List Nat) :
    (payload.length ≤ BUFFER_SZ - HEADER_SZ - CMD_CODE_SZ →
      ∃ frame, encodeFrame dst cmd payload = some frame ∧
        frame.getD SMBUS_LEN_IDX 0 =
          MCTP_HEADER_SZ + ODP_HEADER_SZ + (CMD_CODE_SZ + payload.length) ∧
        MCTP_HEADER_SZ + ODP_HEADER_SZ + (CMD_CODE_SZ + payload.length) < 256) ∧
    (BUFFER_SZ - HEADER_SZ - CMD_CODE_SZ < payload.length →
      encodeFrame dst cmd payload = none) := by
  constructor
  · intro h
    replace h : payload.length ≤ 243 := by
      simpa [BUFFER_SZ, HEADER_SZ, CMD_CODE_SZ, SMBUS_HEADER_SZ, MCTP_HEADER_SZ,
        ODP_HEADER_SZ] using h
    refine ⟨_, encodeFrame_eq dst cmd payload h, ?_,
      by simp only [MCTP_HEADER_SZ, ODP_HEADER_SZ, CMD_CODE_SZ]; omega⟩
    simp only [List.cons_append, List.nil_append, List.getD_cons_succ, List.getD_cons_zero,
      SMBUS_LEN_IDX, MCTP_HEADER_SZ, ODP_HEADER_SZ, CMD_CODE_SZ]
    omega
  · intro h
    replace h : 243 < payload.length := by
      simpa [BUFFER_SZ, HEADER_SZ, CMD_CODE_SZ, SMBUS_HEADER_SZ, MCTP_HEADER_SZ,
        ODP_HEADER_SZ] using h
    simp only [encodeFrame, append_cmd, serializeMsg, setRange, BUFFER_SZ, HEADER_SZ,
      SMBUS_HEADER_SZ, MCTP_HEADER_SZ, ODP_HEADER_SZ, CMD_CODE_SZ]
    norm_num [List.take_replicate, List.drop_replicate, List.length_drop, List.length_take,
      List.length_append, List.length_replicate]
    rw [if_neg (by omega)]

/-- Witness for C3 (amended): a 6-byte payload encodes with length byte
15 < 256, and a 244-byte payload is rejected. -/
theorem c3_amended_witness :
    (∃ frame, encodeFrame .Thermal 1 [10, 11, 12, 13, 14, 15] = some frame ∧
        frame.getD SMBUS_LEN_IDX 0 = 15 ∧ 15 < 256) ∧
      encodeFrame .Thermal 1 (List.replicate 244 0) = none := by
  constructor
  · have h := (c3_amended .Thermal 1 [10, 11, 12, 13, 14, 15]).1 (by decide)
    simpa [MCTP_HEADER_SZ, ODP_HEADER_SZ, CMD_CODE_SZ] using h
  · exact (c3_amended .Thermal 1 (List.replicate 244 0)).2 (by decide)

/-- The serial port as one exchange sees it: the bytes currently buffered for
reading and the bytes written out so far. -/
structure Port where
  input : List Nat
  output : List Nat
deriving DecidableEq, Repr

/-- `port.clear(ClearBuffer::Input)` (line 129). -/
def clearInput (p : Port) : Port := { p with input := [] }

/-- `port.write_all(..)` followed by `port.flush()` (lines 131-133): the
whole frame is on the wire before any read is issued. -/
def writeAll (p : Port) (bytes : List Nat) : Port := { p with output := p.output ++ bytes }

/-- The I/O phase of `Serial::send` under the port lock (lines 124-184):
clear the input buffer, write and flush the frame, then run the read loop
over the bytes the port delivers — whatever is still buffered after the
clear, followed by the device's `response` to the frame just written. -/
def sendPhase (frame response : List Nat) (p : Port) : LoopResult × Port :=
  let p1 := clearInput p
  let p2 := writeAll p1 frame
  (readLoop (p2.input ++ response) [] 0, p2)

/-- Claim C7: buffered input is discarded before the frame is written, and
the write plus flush completes before the first read: whatever stale bytes a
previous failed exchange left behind, the read loop sees exactly the
device's response — the outcome is identical to starting from an empty input
buffer — and the frame still reaches the wire in full. -/
theorem c7_stale_input_isolated (frame response stale out : List Nat) :
    (sendPhase frame response ⟨stale, out⟩).1 = readLoop response [] 0 ∧
      (sendPhase frame response ⟨stale, out⟩).1 = (sendPhase frame response ⟨[], out⟩).1 ∧
      (sendPhase frame response ⟨stale, out⟩).2.output = out ++ frame :=
  ⟨rfl, rfl, rfl⟩

/-! Payload types of the external message crates.  Their internals are
opaque to the facade, which only forwards them, so each is wrapped as a bare
value. -/

structure BstReturn where
  raw : Nat
deriving DecidableEq, Repr

structure BixFixedStrings where
  raw : Nat
deriving DecidableEq, Repr

structure Btp where
  trip_point : Nat
deriving DecidableEq, Repr

structure TimeAlarmDeviceCapabilities where
  raw : Nat
deriving DecidableEq, Repr

structure AcpiTimestamp where
  raw : Nat
deriving DecidableEq, Repr

structure TimerStatus where
  raw : Nat
deriving DecidableEq, Repr

structure AlarmExpiredWakePolicy where
  raw : Nat
deriving DecidableEq, Repr

structure AlarmTimerSeconds where
  raw : Nat
deriving DecidableEq, Repr

/-- The `ThermalResponse` variants the facade matches on. -/
inductive ThermalResponse where
  | ThermalGetTmpResponse (temperature : Nat)
  | ThermalGetVarResponse (val : Nat)
  | ThermalSetVarResponse
deriving DecidableEq, Repr

/-- The `AcpiBatteryResponse` variants the facade matches on. -/
inductive AcpiBatteryResponse where
  | BatteryGetBstResponse (bst : BstReturn)
  | BatteryGetBixResponse (bix : BixFixedStrings)
  | BatterySetBtpResponse
deriving DecidableEq, Repr

/-- The `AcpiTimeAlarmResponse` variants the facade matches on. -/
inductive AcpiTimeAlarmResponse where
  | Capabilities (capabilities : TimeAlarmDeviceCapabilities)
  | RealTime (timestamp : AcpiTimestamp)
  | TimerStatus (status : ECTest.TimerStatus)
  | WakePolicy (policy : AlarmExpiredWakePolicy)
  | TimerSeconds (seconds : AlarmTimerSeconds)
deriving DecidableEq, Repr

/-! The Domain Facade operations, each as a function of the outcome of its
`self.send(..)` exchange (`?` propagates the error): pattern-match the
decoded response against the expected variant, any other variant is the
operation's wrong-response error.  The `f64` conversions (`common::dk_to_c`,
`as f64`) live outside the transport core and are taken as parameters. -/

/-- `Serial::get_temperature` (serial.rs lines 220-231). -/
def get_temperature (dk_to_c : Nat → α) (r : Except String ThermalResponse) :
    Except String α :=
  match r with
  | .error e => .error e
  | .ok (.ThermalGetTmpResponse temperature) => .ok (dk_to_c temperature)
  | .ok _ => .error "GET_TMP received wrong response"

/-- `Serial::thermal_get_var` (lines 187-200), behind all the fan RPM and
threshold getters. -/
def thermal_get_var (to_f64 : Nat → α) (r : Except String ThermalResponse) :
    Except String α :=
  match r with
  | .error e => .error e
  | .ok (.ThermalGetVarResponse val) => .ok (to_f64 val)
  | .ok _ => .error "GET_VAR received wrong response"

/-- `Serial::thermal_set_var` (lines 202-216), behind `set_rpm`. -/
def thermal_set_var (r : Except String ThermalResponse) : Except String Unit :=
  match r with
  | .error e => .error e
  | .ok .ThermalSetVarResponse => .ok ()
  | .ok _ => .error "SET_VAR received wrong response"

/-- `Serial::get_bst` (lines 258-269). -/
def get_bst (r : Except String AcpiBatteryResponse) : Except String BstReturn :=
  match r with
  | .error e => .error e
  | .ok (.BatteryGetBstResponse bst) => .ok bst
  | .ok _ => .error "GET_BST received wrong response"

/-- `Serial::get_bix` (lines 271-282). -/
def get_bix (r : Except String AcpiBatteryResponse) : Except String BixFixedStrings :=
  match r with
  | .error e => .error e
  | .ok (.BatteryGetBixResponse bix) => .ok bix
  | .ok _ => .error "GET_BIX received wrong response"

/-- `Serial::set_btp` (lines 284-296). -/
def set_btp (r : Except String AcpiBatteryResponse) : Except String Unit :=
  match r with
  | .error e => .error e
  | .ok .BatterySetBtpResponse => .ok ()
  | .ok _ => .error "SET_BTP received wrong response"

/-- `Serial::get_capabilities` (lines 300-309). -/
def get_capabilities (r : Except String AcpiTimeAlarmResponse) :
    Except String TimeAlarmDeviceCapabilities :=
  match r with
  | .error e => .error e
  | .ok (.Capabilities capabilities) => .ok capabilities
  | .ok _ => .error "GET_CAPABILITIES received wrong response"

/-- `Serial::get_real_time` (lines 311-320). -/
def get_real_time (r : Except String AcpiTimeAlarmResponse) : Except String AcpiTimestamp :=
  match r with
  | .error e => .error e
  | .ok (.RealTime timestamp) => .ok timestamp
  | .ok _ => .error "GET_REAL_TIME received wrong response"

/-- `Serial::get_wake_status` (lines 322-331). -/
def get_wake_status (r : Except String AcpiTimeAlarmResponse) :
    Except String ECTest.TimerStatus :=
  match r with
  | .error e => .error e
  | .ok (.TimerStatus status) => .ok status
  | .ok _ => .error "GET_WAKE_STATUS received wrong response"

/-- `Serial::get_expired_timer_wake_policy` (lines 333-342). -/
def get_expired_timer_wake_policy (r : Except String AcpiTimeAlarmResponse) :
    Except String AlarmExpiredWakePolicy :=
  match r with
  | .error e => .error e
  | .ok (.WakePolicy policy) => .ok policy
  | .ok _ => .error "GET_TIP received wrong response"

/-- `Serial::get_timer_value` (lines 344-353). -/
def get_timer_value (r : Except String AcpiTimeAlarmResponse) :
    Except String AlarmTimerSeconds :=
  match r with
  | .error e => .error e
  | .ok (.TimerSeconds seconds) => .ok seconds
  | .ok _ => .error "GET_TIV received wrong response"

/-- Claim C8: every Domain Facade operation turns a successfully decoded
response of any variant other than the one it expects into its
wrong-response error — never into a defaulted or zeroed domain value. -/
theorem c8_wrong_variant_rejected :
    (∀ (α : Type) (f : Nat → α) (r : ThermalResponse),
        (∀ t, r ≠ .ThermalGetTmpResponse t) →
        get_temperature f (.ok r) = .error "GET_TMP received wrong response") ∧
    (∀ (α : Type) (f : Nat → α) (r : ThermalResponse),
        (∀ v, r ≠ .ThermalGetVarResponse v) →
        thermal_get_var f (.ok r) = .error "GET_VAR received wrong response") ∧
    (∀ r : ThermalResponse, r ≠ .ThermalSetVarResponse →
        thermal_set_var (.ok r) = .error "SET_VAR received wrong response") ∧
    (∀ r : AcpiBatteryResponse, (∀ b, r ≠ .BatteryGetBstResponse b) →
        get_bst (.ok r) = .error "GET_BST received wrong response") ∧
    (∀ r : AcpiBatteryResponse, (∀ b, r ≠ .BatteryGetBixResponse b) →
        get_bix (.ok r) = .error "GET_BIX received wrong response") ∧
    (∀ r : AcpiBatteryResponse, r ≠ .BatterySetBtpResponse →
        set_btp (.ok r) = .error "SET_BTP received wrong response") ∧
    (∀ r : AcpiTimeAlarmResponse, (∀ x, r ≠ .Capabilities x) →
        get_capabilities (.ok r) = .error "GET_CAPABILITIES received wrong response") ∧
    (∀ r : AcpiTimeAlarmResponse, (∀ x, r ≠ .RealTime x) →
        get_real_time (.ok r) = .error "GET_REAL_TIME received wrong response") ∧
    (∀ r : AcpiTimeAlarmResponse, (∀ x, r ≠ .TimerStatus x) →
        get_wake_status (.ok r) = .error "GET_WAKE_STATUS received wrong response") ∧
    (∀ r : AcpiTimeAlarmResponse, (∀ x, r ≠ .WakePolicy x) →
        get_expired_timer_wake_policy (.ok r) = .error "GET_TIP received wrong response") ∧
    (∀ r : AcpiTimeAlarmResponse, (∀ x, r ≠ .TimerSeconds x) →
        get_timer_value (.ok r) = .error "GET_TIV received wrong response") := by
  refine ⟨?_, ?_, ?_, ?_, ?_, ?_, ?_, ?_, ?_, ?_, ?_⟩
  · intro α f r h
    cases r <;> first | rfl | exact absurd rfl (h _)
  · intro α f r h
    cases r <;> first | rfl | exact absurd rfl (h _)
  · intro r h
    cases r <;> first | rfl | exact absurd rfl h
  · intro r h
    cases r <;> first | rfl | exact absurd rfl (h _)
  · intro r h
    cases r <;> first | rfl | exact absurd rfl (h _)
  · intro r h
    cases r <;> first | rfl | exact absurd rfl h
  · intro r h
    cases r <;> first | rfl | exact absurd rfl (h _)
  · intro r h
    cases r <;> first | rfl | exact absurd rfl (h _)
  · intro r h
    cases r <;> first | rfl | exact absurd rfl (h _)
  · intro r h
    cases r <;> first | rfl | exact absurd rfl (h _)
  · intro r h
    cases r <;> first | rfl | exact absurd rfl (h _)

/-- Witness for C8: a set-var acknowledgement arriving where a temperature
was expected is rejected, not coerced. -/
theorem c8_wrong_variant_rejected_witness :
    get_temperature (fun n => n) (.ok .ThermalSetVarResponse) =
      .error "GET_TMP received wrong response" :=
  c8_wrong_variant_rejected.1 Nat (fun n => n) .ThermalSetVarResponse
    (fun _ h => ThermalResponse.noConfusion h)

theorem readLoop_two_packet_sanity :
    readLoop (mkPacket true false 9 0x204 [5, 6] ++ mkPacket false true 9 0 [8, 9]) [] 0 =
      .ok [5, 6, 8, 9] 0x204 := by decide

theorem readLoop_short_length_sanity :
    readLoop [2, 15, 3, 1, 0, 0, 0] [] 0 = .err (.protocol 3) [] 0 := by decide

theorem readLoop_long_length_sanity :
    readLoop [2, 15, 70, 1] [] 0 = .err (.protocol 70) [] 0 := by decide

-- A SOM packet with len < 9 hits the `&buffer[13..4+len]` panic.
theorem readLoop_short_som_sanity :
    readLoop [2, 15, 5, 1, 1, 9, 0, 0x80, 0x7D] [] 0 = .err .panicSlice [] 0 := by decide

end ECTest
